import Mathlib

/-!
Verification of the frame hand-off and result-delivery pipeline of
`src/core/inference.py` (class `InferenceEngine`).

The Python module is embedded shallowly:

* `Frame` is an opaque identifier (the pixel contents of a frame are never
  inspected by the engine, only handed around).
* Python floats appearing in raw model rows and detection fields are
  modelled as `Rat`; the engine only copies and compares them.
* The YOLO model is an opaque collaborator, modelled by `ModelSpec`: the
  outcome of the `YOLO(path)` constructor together with the warm-up call
  (both live inside one `try` block in `_run_loop`), the `names` mapping,
  and the per-frame inference call which either raises or returns raw rows.
* The engine object is `EngineState`, one field per Python attribute that
  the claims touch, plus `threadPhase` recording where the worker thread's
  `_run_loop` currently stands, and `outputQueue` recording the items
  delivered so far via `loop.call_soon_threadsafe(queue.put_nowait, ...)`
  in delivery order.
* Worker execution is a small-step function `workerStep` (one loop
  iteration or the entry/model-load block per step) iterated by the fueled
  `runWorker`.  `stop` models `_stop_event.set()` followed by
  `Thread.join()`: the join blocks until `_run_loop` returns, which, with
  the stop event set, takes at most two further steps.
-/

/-- A frame is an opaque token; the engine never looks inside it. -/
abbrev Frame := Nat

/-- Embeds `DetectionResult` (pydantic model, `inference.py` lines 23-42):
box, class id, class name, confidence.  Note the pydantic field for
`confidence` carries no `ge`/`le` constraint. -/
structure DetectionResult where
  box : Rat × Rat × Rat × Rat
  class_id : Int
  class_name : String
  confidence : Rat
deriving DecidableEq, Repr

/-- Embeds `InferenceConfig`: model path (opaque), confidence threshold,
image size.  The threshold and size only parametrise the opaque model
call, so they are carried along untouched. -/
structure InferenceConfig where
  model_path : String
  confidence_threshold : Rat
  image_size : Nat
deriving DecidableEq, Repr

/-- The opaque model collaborator.  `loadResult` is the outcome of the
`try` block at `_run_loop` lines 163-170 (constructor plus warm-up call):
an exception message or success.  `names` is `self._model.names`.
`infer` is the model call on a real frame inside `_process_frame`:
an exception message or the raw rows `res.boxes.data.tolist()`
(concatenated over the iterable of result objects). -/
structure ModelSpec where
  loadResult : Except String Unit
  names : Int → Option String
  infer : Frame → Except String (List (List Rat))

/-- Items of the output queue, `QueueItem = tuple[Frame, list[DetectionResult]] | str`.
The string variant is the ad-hoc encoding of a failure outcome; the code
always prefixes it with `"ERROR: "`. -/
inductive QueueItem where
  | frameResults (frame : Frame) (results : List DetectionResult)
  | errorMsg (msg : String)
deriving DecidableEq, Repr

/-- Where the worker thread's `_run_loop` currently stands. -/
inductive WorkerPhase where
  | atEntry
  | looping
  | done
deriving DecidableEq, Repr

/-- The engine object.  `threadPhase = none` models `self._thread is None`
(no thread ever created); `some ph` models an existing thread whose
`_run_loop` is at phase `ph` (`done` = the function returned, i.e. the
thread is no longer alive). -/
structure EngineState where
  loopCaptured : Bool
  stopEvent : Bool
  startedEvent : Bool
  modelLoaded : Bool
  frameToProcess : Option Frame
  threadPhase : Option WorkerPhase
  outputQueue : List QueueItem
deriving DecidableEq, Repr

/-- The fresh engine right after `__init__`. -/
def initState : EngineState :=
  { loopCaptured := false
    stopEvent := false
    startedEvent := false
    modelLoaded := false
    frameToProcess := none
    threadPhase := none
    outputQueue := [] }

/-- Embeds `self._thread is not None and self._thread.is_alive()`. -/
def threadAlive (s : EngineState) : Bool :=
  match s.threadPhase with
  | some .atEntry => true
  | some .looping => true
  | _ => false

/-- Embeds `start()` (lines 122-143).  `loopRunning` is whether
`asyncio.get_running_loop()` succeeds on the calling thread.  Returns the
`RuntimeError` message when it does not; no-op when the thread is alive. -/
def start (loopRunning : Bool) (s : EngineState) : Except String EngineState :=
  if threadAlive s then
    .ok s
  else if !loopRunning then
    .error "InferenceEngine.start() must be called from a running asyncio event loop."
  else
    .ok { s with loopCaptured := true
                 threadPhase := some .atEntry
                 startedEvent := true }

/-- Embeds `submit_frame(frame)` (lines 241-249): overwrite the single slot. -/
def submit_frame (f : Frame) (s : EngineState) : EngineState :=
  { s with frameToProcess := some f }

/-- The `with self._frame_lock` block at the top of each loop iteration
(lines 180-183): take the slot's frame, if any, and clear the slot. -/
def workerTake (s : EngineState) : Option Frame × EngineState :=
  (s.frameToProcess, { s with frameToProcess := none })

/-- Python `int()` on a rational: truncation toward zero. -/
def ratTrunc (q : Rat) : Int :=
  q.num.tdiv q.den

/-- The body of the row loop in `_process_frame` (lines 224-238): a row
with exactly six fields becomes a `DetectionResult`; any other row is
skipped (`continue`). -/
def processRow (m : ModelSpec) (row : List Rat) : Option DetectionResult :=
  match row with
  | [x1, y1, x2, y2, confidence, class_id_float] =>
      let class_id : Int := ratTrunc class_id_float
      some { box := (x1, y1, x2, y2)
             class_id := class_id
             class_name := (m.names class_id).getD "Unknown"
             confidence := confidence }
  | _ => none

/-- The full row loop of `_process_frame` over the raw rows. -/
def processRows (m : ModelSpec) (rows : List (List Rat)) : List DetectionResult :=
  rows.filterMap (processRow m)

/-- Embeds `_process_frame(frame)` (lines 200-239): empty result when no model is
loaded, otherwise the opaque inference call followed by row conversion;
an exception from the model call propagates. -/
def processFrame (m : ModelSpec) (modelLoaded : Bool) (frame : Frame) :
    Except String (List DetectionResult) :=
  if !modelLoaded then
    .ok []
  else
    match m.infer frame with
    | .error e => .error e
    | .ok rows => .ok (processRows m rows)

/-- One small step of the worker thread's `_run_loop`:
`atEntry` runs the guard at line 159 and the model-load `try` block;
`looping` runs one iteration of the `while` loop (stop check, take,
process-and-deliver or idle wait); `done`/no thread do nothing. -/
def workerStep (m : ModelSpec) (s : EngineState) : EngineState :=
  match s.threadPhase with
  | none => s
  | some .done => s
  | some .atEntry =>
      if !s.loopCaptured then
        { s with threadPhase := some .done }
      else
        match m.loadResult with
        | .error e =>
            { s with threadPhase := some .done
                     outputQueue := s.outputQueue
                       ++ [.errorMsg ("ERROR: Failed to load model: " ++ e)] }
        | .ok _ =>
            { s with modelLoaded := true, threadPhase := some .looping }
  | some .looping =>
      if s.stopEvent then
        { s with threadPhase := some .done }
      else
        match s.frameToProcess with
        | none => s
        | some frame =>
            match processFrame m s.modelLoaded frame with
            | .ok results =>
                { s with frameToProcess := none
                         outputQueue := s.outputQueue
                           ++ [.frameResults frame results] }
            | .error e =>
                { s with frameToProcess := none
                         outputQueue := s.outputQueue
                           ++ [.errorMsg ("ERROR: Failed to process frame: " ++ e)] }

/-- Iterate `workerStep` for `n` scheduler steps. -/
def runWorker (m : ModelSpec) : Nat → EngineState → EngineState
  | 0, s => s
  | n + 1, s => runWorker m n (workerStep m s)

/-- Embeds `stop()` (lines 145-149): set the stop event, then join the thread if
one exists (`self._thread is not None`).  With the stop event set,
`_run_loop` returns within two further steps, so the join is modelled by
running two steps. -/
def stop (m : ModelSpec) (s : EngineState) : EngineState :=
  match s.threadPhase with
  | none => { s with stopEvent := true }
  | some _ => runWorker m 2 { s with stopEvent := true }

/-- A model whose load succeeds; frame `0` makes inference raise, any
other frame yields one well-formed row.  Used for concrete witnesses. -/
def demoModel : ModelSpec :=
  { loadResult := .ok ()
    names := fun i => if i = 0 then some "cat" else none
    infer := fun f =>
      if f = 0 then .error "boom"
      else .ok [[1, 2, 3, 4, (9 : Rat)/10, 0]] }

/-- A model whose load fails.  Used for concrete witnesses. -/
def badLoadModel : ModelSpec :=
  { loadResult := .error "no such file"
    names := fun _ => none
    infer := fun _ => .ok [] }

/-- Raw rows mixing malformed (wrong field count) and well-formed rows. -/
def mixedRows : List (List Rat) :=
  [[1, 2, 3], [1, 2, 3, 4, 1/2, 0], [], [5, 6, 7, 8, 3/4, 1, 9]]

/-- A model whose inference yields `mixedRows` on every frame. -/
def mixedModel : ModelSpec :=
  { loadResult := .ok ()
    names := fun _ => none
    infer := fun _ => .ok mixedRows }

/-- The engine right after a first successful `start()` on a fresh engine:
thread spawned, worker at entry, readiness event set. -/
def entryState : EngineState :=
  { initState with loopCaptured := true
                   threadPhase := some .atEntry
                   startedEvent := true }

/-- An engine whose worker has loaded the model and sits in its loop with
frame `0` pending (a frame `demoModel` fails to process). -/
def loopState : EngineState :=
  { loopCaptured := true
    stopEvent := false
    startedEvent := true
    modelLoaded := true
    frameToProcess := some 0
    threadPhase := some .looping
    outputQueue := [] }

/-- An engine in its loop with frame `1` pending, used with `mixedModel`. -/
def mixedState : EngineState :=
  { loopCaptured := true
    stopEvent := false
    startedEvent := true
    modelLoaded := true
    frameToProcess := some 1
    threadPhase := some .looping
    outputQueue := [] }

/-- An engine whose worker thread is alive (in its loop). -/
def aliveState : EngineState :=
  { initState with threadPhase := some .looping }

/-- The engine produced by `start(); stop(); start()` with a model that
loads fine: a fresh worker at entry, but the stop event is still set. -/
def restartedNoFrame : EngineState :=
  { loopCaptured := true
    stopEvent := true
    startedEvent := true
    modelLoaded := true
    frameToProcess := none
    threadPhase := some .atEntry
    outputQueue := [] }

/-- Where the restarted worker of `restartedNoFrame` ends after two steps:
it loads the model and then exits its loop at once, the submitted frame
never consumed, no outcome delivered. -/
def restartDeadEnd : EngineState :=
  { loopCaptured := true
    stopEvent := true
    startedEvent := true
    modelLoaded := true
    frameToProcess := some 7
    threadPhase := some .done
    outputQueue := [] }

/-- A worker whose `_run_loop` has returned takes no further step. -/
theorem workerStep_fixed_of_done (m : ModelSpec) (s : EngineState)
    (h : s.threadPhase = some WorkerPhase.done) : workerStep m s = s := by
  simp [workerStep, h]

/-- An engine with no thread takes no worker step. -/
theorem workerStep_fixed_of_none (m : ModelSpec) (s : EngineState)
    (h : s.threadPhase = none) : workerStep m s = s := by
  simp [workerStep, h]

/-- A fixed point of `workerStep` is fixed under any number of steps. -/
theorem runWorker_fix (m : ModelSpec) (s : EngineState)
    (h : workerStep m s = s) : ∀ n, runWorker m n s = s := by
  intro n
  induction n with
  | zero => rfl
  | succ k ih =>
      show runWorker m k (workerStep m s) = s
      rw [h]
      exact ih

/-- The worker never touches the stop event. -/
theorem workerStep_stopEvent (m : ModelSpec) (s : EngineState) :
    (workerStep m s).stopEvent = s.stopEvent := by
  unfold workerStep
  split
  · rfl
  · rfl
  · split
    · rfl
    · split
      · rfl
      · rfl
  · split
    · rfl
    · split
      · rfl
      · split
        · rfl
        · rfl

/-- The worker never touches the readiness event. -/
theorem workerStep_startedEvent (m : ModelSpec) (s : EngineState) :
    (workerStep m s).startedEvent = s.startedEvent := by
  unfold workerStep
  split
  · rfl
  · rfl
  · split
    · rfl
    · split
      · rfl
      · rfl
  · split
    · rfl
    · split
      · rfl
      · split
        · rfl
        · rfl

/-- Iterated steps never touch the stop event. -/
theorem runWorker_stopEvent (m : ModelSpec) (n : Nat) : ∀ s : EngineState,
    (runWorker m n s).stopEvent = s.stopEvent := by
  induction n with
  | zero => intro s; rfl
  | succ k ih =>
      intro s
      show (runWorker m k (workerStep m s)).stopEvent = s.stopEvent
      rw [ih (workerStep m s), workerStep_stopEvent]

/-- Iterated steps never touch the readiness event. -/
theorem runWorker_startedEvent (m : ModelSpec) (n : Nat) : ∀ s : EngineState,
    (runWorker m n s).startedEvent = s.startedEvent := by
  induction n with
  | zero => intro s; rfl
  | succ k ih =>
      intro s
      show (runWorker m k (workerStep m s)).startedEvent = s.startedEvent
      rw [ih (workerStep m s), workerStep_startedEvent]

/-- After `stop`, the stop event is set. -/
theorem stop_stopEvent (m : ModelSpec) (s : EngineState) :
    (stop m s).stopEvent = true := by
  unfold stop
  cases hp : s.threadPhase with
  | none => rfl
  | some ph => rw [runWorker_stopEvent]

/-- Stopping leaves the readiness event exactly as it was. -/
theorem stop_startedEvent (m : ModelSpec) (s : EngineState) :
    (stop m s).startedEvent = s.startedEvent := by
  unfold stop
  cases hp : s.threadPhase with
  | none => rfl
  | some ph => rw [runWorker_startedEvent]

/-- With the stop event set, two worker steps always reach `done`. -/
theorem join_done (m : ModelSpec) (s : EngineState) (h : s.stopEvent = true)
    (ph : WorkerPhase) (hp : s.threadPhase = some ph) :
    (workerStep m (workerStep m s)).threadPhase = some WorkerPhase.done := by
  cases ph with
  | done =>
      rw [workerStep_fixed_of_done m s hp, workerStep_fixed_of_done m s hp]
      exact hp
  | looping =>
      have h1 : workerStep m s = { s with threadPhase := some WorkerPhase.done } := by
        simp [workerStep, hp, h]
      rw [h1, workerStep_fixed_of_done m _ rfl]
  | atEntry =>
      cases hl : s.loopCaptured with
      | false =>
          have h1 : workerStep m s = { s with threadPhase := some WorkerPhase.done } := by
            simp [workerStep, hp, hl]
          rw [h1, workerStep_fixed_of_done m _ rfl]
      | true =>
          cases hm : m.loadResult with
          | error e =>
              have h1 : workerStep m s =
                  { s with threadPhase := some WorkerPhase.done
                           outputQueue := s.outputQueue
                             ++ [.errorMsg ("ERROR: Failed to load model: " ++ e)] } := by
                simp [workerStep, hp, hl, hm]
              rw [h1, workerStep_fixed_of_done m _ rfl]
          | ok u =>
              have h1 : workerStep m s =
                  { s with modelLoaded := true, threadPhase := some WorkerPhase.looping } := by
                simp [workerStep, hp, hl, hm]
              rw [h1]
              simp [workerStep, h]

/-- After `stop`, the worker has fully exited: either no thread was ever
created, or the thread's `_run_loop` has returned. -/
theorem stop_phase (m : ModelSpec) (s : EngineState) :
    (stop m s).threadPhase = none ∨ (stop m s).threadPhase = some WorkerPhase.done := by
  unfold stop
  cases hp : s.threadPhase with
  | none => exact Or.inl rfl
  | some ph =>
      right
      exact join_done m _ rfl ph rfl

/-- The post-`stop` state is a fixed point of the worker. -/
theorem stop_fixed (m : ModelSpec) (s : EngineState) :
    workerStep m (stop m s) = stop m s := by
  rcases stop_phase m s with h | h
  · exact workerStep_fixed_of_none m _ h
  · exact workerStep_fixed_of_done m _ h

/-- Setting a stop event that is already set changes nothing. -/
theorem set_stopEvent_eq (t : EngineState) (ht : t.stopEvent = true) :
    { t with stopEvent := true } = t := by
  cases t
  simp_all

/-- Row conversion succeeds exactly on rows with six fields. -/
theorem processRow_some_iff (m : ModelSpec) (row : List Rat) :
    (processRow m row).isSome = true ↔ row.length = 6 := by
  rcases row with _ | ⟨x1, _ | ⟨y1, _ | ⟨x2, _ | ⟨y2, _ | ⟨cf, _ | ⟨cid, _ | ⟨z, rest⟩⟩⟩⟩⟩⟩⟩ <;>
    simp [processRow]

/-- A converted row has exactly six fields and its confidence is copied
verbatim from the fifth field. -/
theorem processRow_shape (m : ModelSpec) (row : List Rat) (d : DetectionResult)
    (h : processRow m row = some d) :
    ∃ x1 y1 x2 y2 cf k, row = [x1, y1, x2, y2, cf, k] ∧ d.confidence = cf := by
  rcases row with _ | ⟨x1, _ | ⟨y1, _ | ⟨x2, _ | ⟨y2, _ | ⟨cf, _ | ⟨cid, _ | ⟨z, rest⟩⟩⟩⟩⟩⟩⟩ <;>
    simp [processRow] at h
  exact ⟨x1, y1, x2, y2, cf, cid, rfl, by rw [← h]⟩

/-- Claim C2: after `submit_frame f1` then `submit_frame f2` with no
intervening take, the worker's next take returns `f2`, an immediately
following take returns empty, and the state after the two submissions is
identical to the state after submitting only `f2` — `f1` leaves no trace
and is never observed (latest-wins single slot). -/
theorem submit_latest_wins (s : EngineState) (f1 f2 : Frame) :
    (workerTake (submit_frame f2 (submit_frame f1 s))).1 = some f2 ∧
    (workerTake (workerTake (submit_frame f2 (submit_frame f1 s))).2).1 = none ∧
    submit_frame f2 (submit_frame f1 s) = submit_frame f2 s := by
  refine ⟨rfl, rfl, rfl⟩

/-- Claim C5: `start()` raises exactly when no running event loop is
active on the calling thread; when the worker thread is already alive,
`start()` is a no-op that returns successfully (it checks liveness before
touching the event loop) and so cannot raise, leaving the running worker
untouched. -/
theorem start_notready_iff (lr : Bool) (s : EngineState) :
    (threadAlive s = true → start lr s = .ok s) ∧
    (threadAlive s = false →
      (((∃ t, start lr s = .ok t) ↔ lr = true) ∧
       (lr = false → start lr s = .error
         "InferenceEngine.start() must be called from a running asyncio event loop."))) := by
  constructor
  · intro h
    simp [start, h]
  · intro h
    cases lr with
    | false =>
        refine ⟨?_, fun _ => by simp [start, h]⟩
        simp [start, h]
    | true =>
        refine ⟨?_, fun hfalse => by cases hfalse⟩
        simp [start, h]

/-- Claim C5 witness: a running worker makes `start` a no-op even without
an event loop, and a fresh engine without an event loop gets the error. -/
theorem start_notready_iff_witness :
    threadAlive aliveState = true ∧
    start false aliveState = .ok aliveState ∧
    threadAlive initState = false ∧
    start false initState = .error
      "InferenceEngine.start() must be called from a running asyncio event loop." :=
  ⟨rfl, (start_notready_iff false aliveState).1 rfl, rfl,
    ((start_notready_iff false initState).2 rfl).2 rfl⟩

/-- Claim C7: after `stop()` returns, the worker's execution context has
fully exited (`_run_loop` returned, or no thread ever existed), and no
number of further scheduler steps changes the engine or delivers another
outcome — even when an unconsumed frame remains in the mailbox slot. -/
theorem stop_join_guarantee (m : ModelSpec) (s : EngineState) (n : Nat) :
    ((stop m s).threadPhase = none ∨ (stop m s).threadPhase = some WorkerPhase.done) ∧
    runWorker m n (stop m s) = stop m s ∧
    (runWorker m n (stop m s)).outputQueue = (stop m s).outputQueue := by
  refine ⟨stop_phase m s, runWorker_fix m _ (stop_fixed m s) n, ?_⟩
  rw [runWorker_fix m _ (stop_fixed m s) n]

/-- Claim C8: `stop()` is total on every lifecycle state and idempotent,
and on a never-started engine it returns immediately (the thread field is
still `none`, so no join happens) having only set the stop event. -/
theorem stop_idempotent (m : ModelSpec) (s : EngineState) :
    stop m (stop m s) = stop m s ∧
    stop m initState = { initState with stopEvent := true } ∧
    (stop m initState).threadPhase = none := by
  refine ⟨?_, rfl, rfl⟩
  have hstop := stop_stopEvent m s
  have hph := stop_phase m s
  set t := stop m s with ht
  show stop m t = t
  unfold stop
  split
  · exact set_stopEvent_eq t hstop
  · rename_i ph hsome
    rw [set_stopEvent_eq t hstop]
    have hdone : t.threadPhase = some WorkerPhase.done := by
      rcases hph with h | h
      · rw [h] at hsome
        cases hsome
      · exact h
    exact runWorker_fix m t (workerStep_fixed_of_done m t hdone) 2

/-- Claim C10: a successful `start()` sets the readiness event while the
new worker is still at entry — the model load has not been attempted, no
outcome has been delivered — so readiness never implies a loaded model;
and `stop()` leaves the readiness event exactly as it was. -/
theorem started_event_spec (m : ModelSpec) (s : EngineState)
    (h : threadAlive s = false) :
    (∃ t, start true s = .ok t ∧
      t.startedEvent = true ∧
      t.threadPhase = some WorkerPhase.atEntry ∧
      t.modelLoaded = s.modelLoaded ∧
      t.outputQueue = s.outputQueue) ∧
    (∀ u : EngineState, (stop m u).startedEvent = u.startedEvent) := by
  constructor
  · refine ⟨{ s with loopCaptured := true
                     threadPhase := some .atEntry
                     startedEvent := true }, ?_, rfl, rfl, rfl, rfl⟩
    simp [start, h]
  · exact fun u => stop_startedEvent m u

/-- Claim C10 witness: instantiated on a fresh engine. -/
theorem started_event_spec_witness :
    threadAlive initState = false ∧
    ((∃ t, start true initState = .ok t ∧
      t.startedEvent = true ∧
      t.threadPhase = some WorkerPhase.atEntry ∧
      t.modelLoaded = initState.modelLoaded ∧
      t.outputQueue = initState.outputQueue) ∧
    (∀ u : EngineState, (stop demoModel u).startedEvent = u.startedEvent)) :=
  ⟨rfl, started_event_spec demoModel initState rfl⟩

/-- Each raw row contributes one detection exactly when it has six fields. -/
theorem processRows_length (m : ModelSpec) (rows : List (List Rat)) :
    (processRows m rows).length = (rows.filter (fun r => r.length == 6)).length := by
  induction rows with
  | nil => rfl
  | cons r rs ih =>
      rcases hsome : processRow m r with _ | d
      · have hr : (r.length == 6) = false := by
          rw [beq_eq_false_iff_ne]
          intro h6
          have hs := (processRow_some_iff m r).2 h6
          rw [hsome] at hs
          cases hs
        simp only [processRows, List.filterMap_cons, hsome, List.filter_cons, hr,
          Bool.false_eq_true, if_false]
        simpa [processRows] using ih
      · have hr : (r.length == 6) = true := by
          rw [beq_iff_eq]
          exact (processRow_some_iff m r).1 (by rw [hsome]; rfl)
        simp only [processRows, List.filterMap_cons, hsome, List.filter_cons, hr, if_true,
          List.length_cons]
        simpa [processRows] using ih

/-- Claim C3: when the model load fails at worker entry, the worker
delivers exactly one failure item, with the load-failure message, then
terminates at once; however many further steps run, the queue never grows
again and no success item ever appears beyond what was already there. -/
theorem fatal_load_once (m : ModelSpec) (e : String) (hm : m.loadResult = .error e)
    (s : EngineState) (hp : s.threadPhase = some WorkerPhase.atEntry)
    (hl : s.loopCaptured = true) (n : Nat) (hn : 1 ≤ n) :
    (runWorker m n s).outputQueue =
      s.outputQueue ++ [QueueItem.errorMsg ("ERROR: Failed to load model: " ++ e)] ∧
    (runWorker m n s).threadPhase = some WorkerPhase.done ∧
    ∀ fr rs, QueueItem.frameResults fr rs ∈ (runWorker m n s).outputQueue →
      QueueItem.frameResults fr rs ∈ s.outputQueue := by
  have hstep : workerStep m s =
      { s with threadPhase := some WorkerPhase.done
               outputQueue := s.outputQueue
                 ++ [QueueItem.errorMsg ("ERROR: Failed to load model: " ++ e)] } := by
    simp [workerStep, hp, hl, hm]
  rcases n with _ | k
  · exact absurd hn (by decide)
  · have hrun : runWorker m (k + 1) s = workerStep m s := by
      show runWorker m k (workerStep m s) = workerStep m s
      exact runWorker_fix m _ (workerStep_fixed_of_done m _ (by rw [hstep])) k
    rw [hrun, hstep]
    refine ⟨rfl, rfl, ?_⟩
    intro fr rs hmem
    simp only [List.mem_append, List.mem_singleton] at hmem
    rcases hmem with hmem | hmem
    · exact hmem
    · cases hmem

/-- Claim C3 witness: a failing load on a freshly started engine. -/
theorem fatal_load_once_witness :
    badLoadModel.loadResult = .error "no such file" ∧
    entryState.threadPhase = some WorkerPhase.atEntry ∧
    entryState.loopCaptured = true ∧
    1 ≤ 3 ∧
    ((runWorker badLoadModel 3 entryState).outputQueue =
      entryState.outputQueue
        ++ [QueueItem.errorMsg ("ERROR: Failed to load model: " ++ "no such file")] ∧
    (runWorker badLoadModel 3 entryState).threadPhase = some WorkerPhase.done ∧
    ∀ fr rs,
      QueueItem.frameResults fr rs ∈ (runWorker badLoadModel 3 entryState).outputQueue →
      QueueItem.frameResults fr rs ∈ entryState.outputQueue) :=
  ⟨rfl, rfl, rfl, by decide,
    fatal_load_once badLoadModel "no such file" rfl entryState rfl rfl 3 (by decide)⟩

/-- Claim C4: an exception while processing a frame makes the worker
deliver a failure item with the process-failure message for that cycle —
not a success — consume the frame, and stay in its loop; a subsequent
frame the model handles fine is still processed and delivered. -/
theorem process_error_nonfatal (m : ModelSpec) (s : EngineState) (f : Frame) (e : String)
    (hp : s.threadPhase = some WorkerPhase.looping) (hstop : s.stopEvent = false)
    (hmdl : s.modelLoaded = true) (hf : s.frameToProcess = some f)
    (he : m.infer f = .error e) :
    (workerStep m s).outputQueue =
      s.outputQueue ++ [QueueItem.errorMsg ("ERROR: Failed to process frame: " ++ e)] ∧
    (workerStep m s).threadPhase = some WorkerPhase.looping ∧
    (workerStep m s).frameToProcess = none ∧
    ∀ (f2 : Frame) (rows : List (List Rat)), m.infer f2 = .ok rows →
      (workerStep m (submit_frame f2 (workerStep m s))).outputQueue =
        s.outputQueue ++ [QueueItem.errorMsg ("ERROR: Failed to process frame: " ++ e),
                          QueueItem.frameResults f2 (processRows m rows)] := by
  have hstep : workerStep m s =
      { s with frameToProcess := none
               outputQueue := s.outputQueue
                 ++ [QueueItem.errorMsg ("ERROR: Failed to process frame: " ++ e)] } := by
    simp [workerStep, hp, hstop, hf, processFrame, hmdl, he]
  refine ⟨by rw [hstep], by rw [hstep]; exact hp, by rw [hstep], ?_⟩
  intro f2 rows hok
  rw [hstep]
  simp [submit_frame, workerStep, hp, hstop, processFrame, hmdl, hok]

/-- Claim C4 witness: `demoModel` raises on frame 0 and then handles
frame 1, producing the failure item followed by a success item. -/
theorem process_error_nonfatal_witness :
    loopState.threadPhase = some WorkerPhase.looping ∧
    loopState.stopEvent = false ∧
    loopState.modelLoaded = true ∧
    loopState.frameToProcess = some 0 ∧
    demoModel.infer 0 = .error "boom" ∧
    ((workerStep demoModel loopState).outputQueue =
      loopState.outputQueue
        ++ [QueueItem.errorMsg ("ERROR: Failed to process frame: " ++ "boom")] ∧
    (workerStep demoModel loopState).threadPhase = some WorkerPhase.looping ∧
    (workerStep demoModel loopState).frameToProcess = none ∧
    ∀ (f2 : Frame) (rows : List (List Rat)), demoModel.infer f2 = .ok rows →
      (workerStep demoModel (submit_frame f2 (workerStep demoModel loopState))).outputQueue =
        loopState.outputQueue
          ++ [QueueItem.errorMsg ("ERROR: Failed to process frame: " ++ "boom"),
              QueueItem.frameResults f2 (processRows demoModel rows)]) :=
  ⟨rfl, rfl, rfl, rfl, rfl,
    process_error_nonfatal demoModel loopState 0 "boom" rfl rfl rfl rfl rfl⟩

/-- Claim C6: row conversion keeps exactly the rows with six fields —
conversion of a row succeeds precisely when its field count is six, each
kept row contributes exactly one detection — and a cycle whose model call
returns rows (malformed ones included) still delivers a success item and
keeps the worker looping: no error is raised for malformed rows. -/
theorem malformed_rows_discarded (m : ModelSpec) (s : EngineState) (f : Frame)
    (rows : List (List Rat))
    (hp : s.threadPhase = some WorkerPhase.looping) (hstop : s.stopEvent = false)
    (hmdl : s.modelLoaded = true) (hf : s.frameToProcess = some f)
    (hok : m.infer f = .ok rows) :
    (∀ row, (processRow m row).isSome = true ↔ row.length = 6) ∧
    (processRows m rows).length = (rows.filter (fun r => r.length == 6)).length ∧
    (workerStep m s).outputQueue =
      s.outputQueue ++ [QueueItem.frameResults f (processRows m rows)] ∧
    (workerStep m s).threadPhase = some WorkerPhase.looping := by
  have hstep : workerStep m s =
      { s with frameToProcess := none
               outputQueue := s.outputQueue
                 ++ [QueueItem.frameResults f (processRows m rows)] } := by
    simp [workerStep, hp, hstop, hf, processFrame, hmdl, hok]
  exact ⟨processRow_some_iff m, processRows_length m rows,
    by rw [hstep], by rw [hstep]; exact hp⟩

/-- Claim C6 witness: `mixedRows` holds two malformed rows and two
well-formed ones; the cycle still delivers a success item. -/
theorem malformed_rows_discarded_witness :
    mixedState.threadPhase = some WorkerPhase.looping ∧
    mixedState.stopEvent = false ∧
    mixedState.modelLoaded = true ∧
    mixedState.frameToProcess = some 1 ∧
    mixedModel.infer 1 = .ok mixedRows ∧
    ((∀ row, (processRow mixedModel row).isSome = true ↔ row.length = 6) ∧
    (processRows mixedModel mixedRows).length =
      (mixedRows.filter (fun r => r.length == 6)).length ∧
    (workerStep mixedModel mixedState).outputQueue =
      mixedState.outputQueue ++ [QueueItem.frameResults 1 (processRows mixedModel mixedRows)] ∧
    (workerStep mixedModel mixedState).threadPhase = some WorkerPhase.looping) :=
  ⟨rfl, rfl, rfl, rfl, rfl,
    malformed_rows_discarded mixedModel mixedState 1 mixedRows rfl rfl rfl rfl rfl⟩

/-- Claim C9 counterexample: `_process_frame` copies the raw confidence
field into `DetectionResult` without any bounds check, so a raw row with
confidence 2 yields a stored confidence outside [0, 1]. -/
theorem confidence_unbounded_cex :
    ¬ (∀ d ∈ processRows demoModel [[0, 0, 1, 1, 2, 0]],
        0 ≤ d.confidence ∧ d.confidence ≤ 1) := by
  decide

/-- Claim C9 as amended: the worker stores each row's confidence field
verbatim, so every constructed `DetectionResult` has confidence in
[0, 1] whenever every raw row's fifth field lies in [0, 1] (YOLO's
documented range); the code itself enforces no bound. -/
theorem confidence_bounds_of_rows (m : ModelSpec) (rows : List (List Rat))
    (hb : ∀ row ∈ rows, 0 ≤ row.getD 4 0 ∧ row.getD 4 0 ≤ 1) :
    ∀ d ∈ processRows m rows, 0 ≤ d.confidence ∧ d.confidence ≤ 1 := by
  intro d hd
  simp only [processRows] at hd
  rcases List.mem_filterMap.mp hd with ⟨row, hrow, hsome⟩
  rcases processRow_shape m row d hsome with ⟨x1, y1, x2, y2, cf, k, hshape, hcf⟩
  have hb2 := hb row hrow
  rw [hshape] at hb2
  simpa [List.getD_cons_succ, List.getD_cons_zero, hcf] using hb2

/-- Claim C9 amended witness: one in-range row. -/
theorem confidence_bounds_of_rows_witness :
    (∀ row ∈ [[(1 : Rat), 2, 3, 4, 1, 0]], 0 ≤ row.getD 4 0 ∧ row.getD 4 0 ≤ 1) ∧
    ∀ d ∈ processRows demoModel [[(1 : Rat), 2, 3, 4, 1, 0]],
      0 ≤ d.confidence ∧ d.confidence ≤ 1 :=
  ⟨by decide,
    confidence_bounds_of_rows demoModel [[(1 : Rat), 2, 3, 4, 1, 0]] (by decide)⟩

/-- Claim C1, code bug: the stop event is never cleared, so after
`start(); stop()`, a second `start()` does spawn a fresh worker, but that
worker loads the model and exits its loop at once: a frame submitted
after the restart is never consumed and no outcome is ever delivered,
however long the worker runs — restart never processes anything. -/
theorem restart_worker_dead (n : Nat) :
    start true (stop demoModel (workerStep demoModel entryState)) = .ok restartedNoFrame ∧
    restartedNoFrame.stopEvent = true ∧
    (runWorker demoModel n (submit_frame 7 restartedNoFrame)).outputQueue = [] ∧
    (runWorker demoModel n (submit_frame 7 restartedNoFrame)).frameToProcess = some 7 := by
  have h2 : ∀ k, runWorker demoModel (k + 2) (submit_frame 7 restartedNoFrame)
      = restartDeadEnd := by
    intro k
    show runWorker demoModel k
      (workerStep demoModel (workerStep demoModel (submit_frame 7 restartedNoFrame)))
      = restartDeadEnd
    have hw : workerStep demoModel (workerStep demoModel (submit_frame 7 restartedNoFrame))
        = restartDeadEnd := by decide
    rw [hw]
    exact runWorker_fix demoModel restartDeadEnd (by decide) k
  refine ⟨rfl, rfl, ?_, ?_⟩ <;>
  · match n with
    | 0 => rfl
    | 1 => rfl
    | k + 2 => rw [h2 k]; rfl
